import Mathlib

/-!
Shallow embedding of `src/TXFrameMemoryBudget.cpp`: the TX engine's
frame-memory budget ledger (`FrameMemoryBudgetSystem`, `uint64_t` arithmetic
modelled as `Nat` taken modulo `2 ^ 64` wherever the C++ computes in
`uint64_t`) and its error-budget ledger (`ErrorBudgetSystem`, `float`
arithmetic idealised as exact rationals `ℚ`).
-/

namespace TX

/-- The wrap-around modulus of C++ `uint64_t` arithmetic. -/
def U64 : Nat := 2 ^ 64

/-- Transcribes `enum class FrameMemoryDomain` (without the `Count` sentinel,
which only sizes the table). -/
inductive FrameMemoryDomain : Type
  | Geometry
  | Animation
  | Textures
  | Particles
  | AI
  | Audio
  | Physics
  | UI
deriving DecidableEq, Fintype

/-- Transcribes `struct FrameMemoryBudget { uint64_t MaxBytes; uint64_t UsedBytes; }`. -/
structure FrameMemoryBudget where
  MaxBytes : Nat
  UsedBytes : Nat
deriving DecidableEq

/-- Transcribes `class FrameMemoryBudgetSystem`: the `Budgets` table indexed by
domain plus the `TotalBudget` scalar. -/
structure FrameMemoryBudgetSystem where
  Budgets : FrameMemoryDomain → FrameMemoryBudget
  TotalBudget : Nat

instance : DecidableEq FrameMemoryBudgetSystem := fun a b =>
  decidable_of_iff (a.Budgets = b.Budgets ∧ a.TotalBudget = b.TotalBudget)
    (by cases a; cases b; simp)

/-- The per-domain percentages written out in `FrameMemoryBudgetSystem::Initialize`. -/
def percentages : FrameMemoryDomain → Nat
  | .Geometry => 30
  | .Textures => 25
  | .Animation => 10
  | .Particles => 8
  | .Physics => 8
  | .AI => 7
  | .Audio => 6
  | .UI => 6

/-- Transcribes `FrameMemoryBudgetSystem::Initialize(uint64_t totalFrameBudget)`:
each domain gets `{ totalFrameBudget * percentage / 100, 0 }`, the product taken
modulo `2 ^ 64` exactly as the `uint64_t` multiplication wraps, then divided by
100 with integer truncation. The previous state is overwritten wholesale. -/
def FrameMemoryBudgetSystem.Initialize (_s : FrameMemoryBudgetSystem)
    (totalFrameBudget : Nat) : FrameMemoryBudgetSystem where
  TotalBudget := totalFrameBudget
  Budgets := fun d =>
    { MaxBytes := totalFrameBudget * percentages d % U64 / 100, UsedBytes := 0 }

/-- Transcribes `FrameMemoryBudgetSystem::BeginFrame()`: every domain's
`UsedBytes` becomes 0; limits and `TotalBudget` are untouched. -/
def FrameMemoryBudgetSystem.BeginFrame (s : FrameMemoryBudgetSystem) :
    FrameMemoryBudgetSystem where
  TotalBudget := s.TotalBudget
  Budgets := fun d => { MaxBytes := (s.Budgets d).MaxBytes, UsedBytes := 0 }

/-- Transcribes `FrameMemoryBudgetSystem::Request(domain, bytes)`: refuse when
`UsedBytes + bytes > MaxBytes` (the sum computed in wrap-around `uint64_t`
arithmetic), otherwise commit the same wrapped sum and accept. -/
def FrameMemoryBudgetSystem.Request (s : FrameMemoryBudgetSystem)
    (domain : FrameMemoryDomain) (bytes : Nat) : Bool × FrameMemoryBudgetSystem :=
  if ((s.Budgets domain).UsedBytes + bytes) % U64 > (s.Budgets domain).MaxBytes then
    (false, s)
  else
    (true,
      { TotalBudget := s.TotalBudget
        Budgets := fun d =>
          if d = domain then
            { MaxBytes := (s.Budgets domain).MaxBytes
              UsedBytes := ((s.Budgets domain).UsedBytes + bytes) % U64 }
          else s.Budgets d })

/-- Transcribes `FrameMemoryBudgetSystem::GetRemaining(domain)`. -/
def FrameMemoryBudgetSystem.GetRemaining (s : FrameMemoryBudgetSystem)
    (domain : FrameMemoryDomain) : Nat :=
  if (s.Budgets domain).MaxBytes > (s.Budgets domain).UsedBytes then
    (s.Budgets domain).MaxBytes - (s.Budgets domain).UsedBytes
  else 0

/-- Transcribes `FrameMemoryBudgetSystem::Reset()`: `memset(Budgets, 0, …)`
and `TotalBudget = 0`. -/
def FrameMemoryBudgetSystem.Reset (_s : FrameMemoryBudgetSystem) :
    FrameMemoryBudgetSystem where
  TotalBudget := 0
  Budgets := fun _ => { MaxBytes := 0, UsedBytes := 0 }

/-- The state the C++ constructor `FrameMemoryBudgetSystem()` leaves: it calls
`Reset()`, so everything is zero. -/
def FrameMemoryBudgetSystem.constructed : FrameMemoryBudgetSystem where
  TotalBudget := 0
  Budgets := fun _ => { MaxBytes := 0, UsedBytes := 0 }

/-- Transcribes `enum class ErrorType` (without the `Count` sentinel). -/
inductive ErrorType : Type
  | Spatial
  | Temporal
  | Shading
  | Reflection
  | Volumetric
deriving DecidableEq, Fintype

/-- Transcribes `struct ErrorBudget { float Current; float Limit; }`,
floats idealised as rationals. -/
structure ErrorBudget where
  Current : ℚ
  Limit : ℚ
deriving DecidableEq

/-- Transcribes `struct PerceptualState`. -/
structure PerceptualState where
  CameraVelocity : ℚ
  FocusDepth : ℚ
  Luminance : ℚ

/-- Transcribes the `BaseLimits[]` table `{1.0f, 0.8f, 0.6f, 0.5f, 0.7f}`,
indexed in enum order Spatial, Temporal, Shading, Reflection, Volumetric. -/
def BaseLimits : ErrorType → ℚ
  | .Spatial => 1
  | .Temporal => 4 / 5
  | .Shading => 3 / 5
  | .Reflection => 1 / 2
  | .Volumetric => 7 / 10

/-- Transcribes `class ErrorBudgetSystem`: the `Budgets` table indexed by error type. -/
structure ErrorBudgetSystem where
  Budgets : ErrorType → ErrorBudget

/-- Transcribes `ErrorBudgetSystem::Reset()`: every `Current` becomes 0 and
every `Limit` is restored to its base constant. -/
def ErrorBudgetSystem.Reset (_s : ErrorBudgetSystem) : ErrorBudgetSystem where
  Budgets := fun t => { Current := 0, Limit := BaseLimits t }

/-- The state the C++ constructor `ErrorBudgetSystem()` leaves: it calls
`Reset()`. -/
def ErrorBudgetSystem.constructed : ErrorBudgetSystem where
  Budgets := fun t => { Current := 0, Limit := BaseLimits t }

/-- Transcribes `ErrorBudgetSystem::AdaptToPerception(p)`: the Temporal,
Spatial and Reflection limits are recomputed from their base constants and
`p`; the Shading and Volumetric entries and every `Current` are untouched. -/
def ErrorBudgetSystem.AdaptToPerception (s : ErrorBudgetSystem)
    (p : PerceptualState) : ErrorBudgetSystem where
  Budgets := fun t =>
    match t with
    | .Temporal =>
        { Current := (s.Budgets .Temporal).Current
          Limit := BaseLimits .Temporal * (1 + p.CameraVelocity) }
    | .Spatial =>
        { Current := (s.Budgets .Spatial).Current
          Limit := BaseLimits .Spatial * (1 + p.Luminance * (1 / 2)) }
    | .Reflection =>
        { Current := (s.Budgets .Reflection).Current
          Limit := BaseLimits .Reflection * (1 + p.FocusDepth) }
    | .Shading => s.Budgets .Shading
    | .Volumetric => s.Budgets .Volumetric

/-- Transcribes `ErrorBudgetSystem::Request(type, amount)`: refuse when
`Current + amount > Limit`, otherwise commit the sum and accept. -/
def ErrorBudgetSystem.Request (s : ErrorBudgetSystem) (ty : ErrorType)
    (amount : ℚ) : Bool × ErrorBudgetSystem :=
  if (s.Budgets ty).Current + amount > (s.Budgets ty).Limit then
    (false, s)
  else
    (true,
      { Budgets := fun t =>
          if t = ty then
            { Current := (s.Budgets ty).Current + amount
              Limit := (s.Budgets ty).Limit }
          else s.Budgets t })

/-- Transcribes `ErrorBudgetSystem::Saturation()`: a fold of `max` over
`Current / Limit` in array (enum) order, seeded with `0.0f`. -/
def ErrorBudgetSystem.Saturation (s : ErrorBudgetSystem) : ℚ :=
  [ErrorType.Spatial, ErrorType.Temporal, ErrorType.Shading,
   ErrorType.Reflection, ErrorType.Volumetric].foldl
    (fun maxSat t => max maxSat ((s.Budgets t).Current / (s.Budgets t).Limit)) 0

/-- Transcribes `ErrorBudgetSystem::GetUsage(type)`. -/
def ErrorBudgetSystem.GetUsage (s : ErrorBudgetSystem) (ty : ErrorType) : ℚ :=
  (s.Budgets ty).Current / (s.Budgets ty).Limit

/-- A frame's sequence of memory `Request` calls, applied in call order. -/
def RunMemRequests (s : FrameMemoryBudgetSystem) :
    List (FrameMemoryDomain × Nat) → FrameMemoryBudgetSystem
  | [] => s
  | r :: rest => RunMemRequests (s.Request r.1 r.2).2 rest

/-- A frame's sequence of error `Request` calls, applied in call order. -/
def RunErrRequests (s : ErrorBudgetSystem) :
    List (ErrorType × ℚ) → ErrorBudgetSystem
  | [] => s
  | r :: rest => RunErrRequests (s.Request r.1 r.2).2 rest

/-- The conservation invariant of the memory ledger: `consumed ≤ limit`
for every domain. -/
def MemWithinLimits (s : FrameMemoryBudgetSystem) : Prop :=
  ∀ d, (s.Budgets d).UsedBytes ≤ (s.Budgets d).MaxBytes

instance (s : FrameMemoryBudgetSystem) : Decidable (MemWithinLimits s) :=
  inferInstanceAs (Decidable (∀ d, (s.Budgets d).UsedBytes ≤ (s.Budgets d).MaxBytes))

/-- The conservation invariant of the error ledger: `consumed ≤ limit`
for every error type. -/
def ErrWithinLimits (s : ErrorBudgetSystem) : Prop :=
  ∀ t, (s.Budgets t).Current ≤ (s.Budgets t).Limit

/-- The sum of the eight per-domain limits. -/
def sumOfLimits (s : FrameMemoryBudgetSystem) : Nat :=
  (s.Budgets .Geometry).MaxBytes + (s.Budgets .Animation).MaxBytes +
  (s.Budgets .Textures).MaxBytes + (s.Budgets .Particles).MaxBytes +
  (s.Budgets .AI).MaxBytes + (s.Budgets .Audio).MaxBytes +
  (s.Budgets .Physics).MaxBytes + (s.Budgets .UI).MaxBytes

/-- Modelled from the spec: "`saturation()` → `max` over all categories of
`usageRatio(category)`" — the plain five-way maximum of the usage ratios, with
no extra seed, for comparison against `ErrorBudgetSystem.Saturation`. -/
def SpecMaxUsage (s : ErrorBudgetSystem) : ℚ :=
  max (max (max (max (s.GetUsage .Spatial) (s.GetUsage .Temporal))
    (s.GetUsage .Shading)) (s.GetUsage .Reflection)) (s.GetUsage .Volumetric)

/-- A concrete memory ledger: Geometry has limit 10 with 5 bytes already used. -/
def memTen : FrameMemoryBudgetSystem where
  TotalBudget := 0
  Budgets := fun d =>
    if d = FrameMemoryDomain.Geometry then ⟨10, 5⟩ else ⟨0, 0⟩

/-- A concrete error ledger with every `Current` at -1 and limits at base
(reachable from the constructed state by five accepted negative requests). -/
def errNeg : ErrorBudgetSystem where
  Budgets := fun t => { Current := -1, Limit := BaseLimits t }

/-- An error ledger whose Temporal limit was adapted to zero by a
`CameraVelocity` of -1 (the adaptation multiplies the base limit by `1 + (-1)`). -/
def errTemporalZero : ErrorBudgetSystem :=
  ErrorBudgetSystem.constructed.AdaptToPerception ⟨-1, 0, 0⟩

theorem mem_Request_true_iff (s : FrameMemoryBudgetSystem) (d : FrameMemoryDomain)
    (bytes : Nat) :
    (s.Request d bytes).1 = true ↔
      ((s.Budgets d).UsedBytes + bytes) % U64 ≤ (s.Budgets d).MaxBytes := by
  by_cases hc : ((s.Budgets d).UsedBytes + bytes) % U64 > (s.Budgets d).MaxBytes <;>
    simp [FrameMemoryBudgetSystem.Request, hc]
  omega

theorem mem_Request_accept_used (s : FrameMemoryBudgetSystem) (d : FrameMemoryDomain)
    (bytes : Nat) (hacc : (s.Request d bytes).1 = true) :
    ((s.Request d bytes).2.Budgets d).UsedBytes = ((s.Budgets d).UsedBytes + bytes) % U64 := by
  by_cases hc : ((s.Budgets d).UsedBytes + bytes) % U64 > (s.Budgets d).MaxBytes
  · simp [FrameMemoryBudgetSystem.Request, hc] at hacc
  · simp [FrameMemoryBudgetSystem.Request, hc]

theorem mem_Request_refuse (s : FrameMemoryBudgetSystem) (d : FrameMemoryDomain)
    (bytes : Nat) (href : (s.Request d bytes).1 = false) :
    (s.Request d bytes).2 = s := by
  by_cases hc : ((s.Budgets d).UsedBytes + bytes) % U64 > (s.Budgets d).MaxBytes
  · simp [FrameMemoryBudgetSystem.Request, hc]
  · simp [FrameMemoryBudgetSystem.Request, hc] at href

theorem err_Request_true_iff (s : ErrorBudgetSystem) (ty : ErrorType) (amount : ℚ) :
    (s.Request ty amount).1 = true ↔
      (s.Budgets ty).Current + amount ≤ (s.Budgets ty).Limit := by
  by_cases hc : (s.Budgets ty).Current + amount > (s.Budgets ty).Limit <;>
    simp [ErrorBudgetSystem.Request, hc]
  exact le_of_not_lt hc

theorem err_Request_accept_current (s : ErrorBudgetSystem) (ty : ErrorType) (amount : ℚ)
    (hacc : (s.Request ty amount).1 = true) :
    ((s.Request ty amount).2.Budgets ty).Current = (s.Budgets ty).Current + amount := by
  by_cases hc : (s.Budgets ty).Current + amount > (s.Budgets ty).Limit
  · simp [ErrorBudgetSystem.Request, hc] at hacc
  · simp [ErrorBudgetSystem.Request, hc]

theorem err_Request_refuse (s : ErrorBudgetSystem) (ty : ErrorType) (amount : ℚ)
    (href : (s.Request ty amount).1 = false) :
    (s.Request ty amount).2 = s := by
  by_cases hc : (s.Budgets ty).Current + amount > (s.Budgets ty).Limit
  · simp [ErrorBudgetSystem.Request, hc]
  · simp [ErrorBudgetSystem.Request, hc] at href

theorem mem_inv_step (s : FrameMemoryBudgetSystem) (d : FrameMemoryDomain) (bytes : Nat)
    (h : MemWithinLimits s) : MemWithinLimits (s.Request d bytes).2 := by
  by_cases hc : ((s.Budgets d).UsedBytes + bytes) % U64 > (s.Budgets d).MaxBytes
  · simpa [FrameMemoryBudgetSystem.Request, hc] using h
  · intro d'
    by_cases hd : d' = d <;> simp [FrameMemoryBudgetSystem.Request, hc, hd]
    · omega
    · exact h d'

theorem err_inv_step (s : ErrorBudgetSystem) (ty : ErrorType) (amount : ℚ)
    (h : ErrWithinLimits s) : ErrWithinLimits (s.Request ty amount).2 := by
  by_cases hc : (s.Budgets ty).Current + amount > (s.Budgets ty).Limit
  · simpa [ErrorBudgetSystem.Request, hc] using h
  · intro t
    by_cases ht : t = ty <;> simp [ErrorBudgetSystem.Request, hc, ht]
    · exact le_of_not_lt hc
    · exact h t

theorem mem_inv_run (reqs : List (FrameMemoryDomain × Nat)) :
    ∀ s, MemWithinLimits s → MemWithinLimits (RunMemRequests s reqs) := by
  induction reqs with
  | nil => exact fun s h => h
  | cons r rest ih => exact fun s h => ih _ (mem_inv_step s r.1 r.2 h)

theorem err_inv_run (reqs : List (ErrorType × ℚ)) :
    ∀ s, ErrWithinLimits s → ErrWithinLimits (RunErrRequests s reqs) := by
  induction reqs with
  | nil => exact fun s h => h
  | cons r rest ih => exact fun s h => ih _ (err_inv_step s r.1 r.2 h)

/-- Claim C1 fails as stated on the memory ledger: with Geometry at limit 10
and 5 bytes consumed, requesting `2 ^ 64 - 1` bytes is accepted even though
the exact sum `5 + (2 ^ 64 - 1)` exceeds the limit, and the consumed counter
does not increase by the requested amount — the `uint64_t` sum wraps to 4. -/
theorem C1_counterexample :
    (memTen.Request FrameMemoryDomain.Geometry (2 ^ 64 - 1)).1 = true ∧
    ¬ ((memTen.Budgets FrameMemoryDomain.Geometry).UsedBytes + (2 ^ 64 - 1) ≤
        (memTen.Budgets FrameMemoryDomain.Geometry).MaxBytes) ∧
    ((memTen.Request FrameMemoryDomain.Geometry (2 ^ 64 - 1)).2.Budgets
        FrameMemoryDomain.Geometry).UsedBytes ≠
      (memTen.Budgets FrameMemoryDomain.Geometry).UsedBytes + (2 ^ 64 - 1) := by
  decide

/-- Claim C1 amended: admission correctness holds with the memory ledger's sum
taken in wrap-around `uint64_t` arithmetic, while the error ledger satisfies
the claim verbatim. A memory request is accepted iff the wrapped sum
`(consumed + amount) % 2 ^ 64` is at most the limit, acceptance sets the
consumed counter to exactly that wrapped sum (which is `consumed + amount`
whenever the sum does not overflow), and refusal leaves the whole state
unchanged; an error request is accepted iff `consumed + amount ≤ limit`,
acceptance increases the consumed value by exactly the amount, and refusal
leaves the whole state unchanged. -/
theorem C1_amended_admission (ms : FrameMemoryBudgetSystem) (d : FrameMemoryDomain)
    (bytes : Nat) (es : ErrorBudgetSystem) (ty : ErrorType) (amount : ℚ) :
    ((ms.Request d bytes).1 = true ↔
      ((ms.Budgets d).UsedBytes + bytes) % U64 ≤ (ms.Budgets d).MaxBytes) ∧
    ((ms.Request d bytes).1 = true →
      ((ms.Request d bytes).2.Budgets d).UsedBytes =
        ((ms.Budgets d).UsedBytes + bytes) % U64) ∧
    ((ms.Budgets d).UsedBytes + bytes < U64 → (ms.Request d bytes).1 = true →
      ((ms.Request d bytes).2.Budgets d).UsedBytes = (ms.Budgets d).UsedBytes + bytes) ∧
    ((ms.Request d bytes).1 = false → (ms.Request d bytes).2 = ms) ∧
    ((es.Request ty amount).1 = true ↔
      (es.Budgets ty).Current + amount ≤ (es.Budgets ty).Limit) ∧
    ((es.Request ty amount).1 = true →
      ((es.Request ty amount).2.Budgets ty).Current =
        (es.Budgets ty).Current + amount) ∧
    ((es.Request ty amount).1 = false → (es.Request ty amount).2 = es) := by
  refine ⟨mem_Request_true_iff ms d bytes, mem_Request_accept_used ms d bytes,
    fun hlt hacc => ?_, mem_Request_refuse ms d bytes,
    err_Request_true_iff es ty amount, err_Request_accept_current es ty amount,
    err_Request_refuse es ty amount⟩
  rw [mem_Request_accept_used ms d bytes hacc, Nat.mod_eq_of_lt hlt]

/-- Claim C2: for both ledgers, from any state satisfying `consumed ≤ limit`
for every category, the invariant still holds after any sequence of `Request`
calls, whatever the requested amounts (the memory counter is updated modulo
`2 ^ 64` by the very value the admission check bounded, so the invariant
survives even wrap-around). Because the request list is universally
quantified, the invariant holds after every prefix, i.e. after every call. -/
theorem C2_conservation (ms : FrameMemoryBudgetSystem)
    (mreqs : List (FrameMemoryDomain × Nat)) (es : ErrorBudgetSystem)
    (ereqs : List (ErrorType × ℚ))
    (hm : MemWithinLimits ms) (he : ErrWithinLimits es) :
    MemWithinLimits (RunMemRequests ms mreqs) ∧
    ErrWithinLimits (RunErrRequests es ereqs) :=
  ⟨mem_inv_run mreqs ms hm, err_inv_run ereqs es he⟩

/-- Witness for C2 at concrete inputs: the invariant holds before and after a
concrete burst of requests (one accepted, one refused on the memory side). -/
theorem C2_conservation_witness :
    MemWithinLimits memTen ∧ ErrWithinLimits ErrorBudgetSystem.constructed ∧
    MemWithinLimits (RunMemRequests memTen
      [(FrameMemoryDomain.Geometry, 3), (FrameMemoryDomain.Geometry, 100)]) ∧
    ErrWithinLimits (RunErrRequests ErrorBudgetSystem.constructed
      [(ErrorType.Spatial, 1 / 2)]) := by
  have he : ErrWithinLimits ErrorBudgetSystem.constructed := by
    intro t
    cases t <;> norm_num [ErrorBudgetSystem.constructed, BaseLimits]
  have h := C2_conservation memTen
    [(FrameMemoryDomain.Geometry, 3), (FrameMemoryDomain.Geometry, 100)]
    ErrorBudgetSystem.constructed [(ErrorType.Spatial, 1 / 2)] (by decide) he
  exact ⟨by decide, he, h.1, h.2⟩

/-- Claim C3 fails as stated for large totals: `Initialize` computes each
limit as `totalFrameBudget * percentage / 100` in `uint64_t`, so the product
wraps modulo `2 ^ 64`. At `totalBytes = 2 ^ 63` the Geometry product
`2 ^ 63 * 30` is a multiple of `2 ^ 64`, the computed Geometry limit is 0
instead of the exact `2 ^ 63 * 30 / 100`, and the eight limits sum to far
less than `totalBytes - 7`. -/
theorem C3_counterexample :
    ((FrameMemoryBudgetSystem.constructed.Initialize (2 ^ 63)).Budgets
        FrameMemoryDomain.Geometry).MaxBytes = 0 ∧
    ((FrameMemoryBudgetSystem.constructed.Initialize (2 ^ 63)).Budgets
        FrameMemoryDomain.Geometry).MaxBytes ≠
      2 ^ 63 * percentages FrameMemoryDomain.Geometry / 100 ∧
    sumOfLimits (FrameMemoryBudgetSystem.constructed.Initialize (2 ^ 63)) + 7 <
      2 ^ 63 := by
  refine ⟨by decide, by decide, by decide⟩

/-- Claim C3 amended: whenever the largest product `totalBytes * 30` does not
overflow `uint64_t` (so no product wraps), every domain limit equals
`totalBytes * percentage / 100` with the fixed percentages
{Geometry 30, Textures 25, Animation 10, Particles 8, Physics 8, AI 7,
Audio 6, UI 6}, and the eight limits sum to `totalBytes` up to an integer
truncation loss of at most 7 bytes. -/
theorem C3_amended_partition (s : FrameMemoryBudgetSystem) (total : Nat)
    (hnof : total * 30 < U64) :
    (∀ d, ((s.Initialize total).Budgets d).MaxBytes = total * percentages d / 100) ∧
    sumOfLimits (s.Initialize total) ≤ total ∧
    total ≤ sumOfLimits (s.Initialize total) + 7 := by
  simp only [U64] at hnof
  have e30 : total * 30 % 2 ^ 64 = total * 30 := Nat.mod_eq_of_lt hnof
  have e25 : total * 25 % 2 ^ 64 = total * 25 := Nat.mod_eq_of_lt (by omega)
  have e10 : total * 10 % 2 ^ 64 = total * 10 := Nat.mod_eq_of_lt (by omega)
  have e8 : total * 8 % 2 ^ 64 = total * 8 := Nat.mod_eq_of_lt (by omega)
  have e7 : total * 7 % 2 ^ 64 = total * 7 := Nat.mod_eq_of_lt (by omega)
  have e6 : total * 6 % 2 ^ 64 = total * 6 := Nat.mod_eq_of_lt (by omega)
  refine ⟨fun d => ?_, ?_, ?_⟩
  · cases d <;>
      simp only [FrameMemoryBudgetSystem.Initialize, percentages, U64,
        e30, e25, e10, e8, e7, e6]
  · simp only [sumOfLimits, FrameMemoryBudgetSystem.Initialize, percentages, U64,
      e30, e25, e10, e8, e7, e6]
    omega
  · simp only [sumOfLimits, FrameMemoryBudgetSystem.Initialize, percentages, U64,
      e30, e25, e10, e8, e7, e6]
    omega

/-- Witness for C3 at `totalBytes = 99`: no overflow, the limits are the
truncated shares, and the rounding loss is exactly 7 bytes. -/
theorem C3_amended_partition_witness :
    99 * 30 < U64 ∧
    (∀ d, ((FrameMemoryBudgetSystem.constructed.Initialize 99).Budgets d).MaxBytes =
      99 * percentages d / 100) ∧
    sumOfLimits (FrameMemoryBudgetSystem.constructed.Initialize 99) ≤ 99 ∧
    99 ≤ sumOfLimits (FrameMemoryBudgetSystem.constructed.Initialize 99) + 7 := by
  have h := C3_amended_partition FrameMemoryBudgetSystem.constructed 99 (by decide)
  exact ⟨by decide, h.1, h.2.1, h.2.2⟩

/-- Claim C4: `AdaptToPerception` sets the Temporal limit to
`baseTemporal * (1 + cameraVelocity)`, the Spatial limit to
`baseSpatial * (1 + luminance * 0.5)` and the Reflection limit to
`baseReflection * (1 + focusDepth)`; it leaves the Shading and Volumetric
entries untouched (hence at their base constants whenever they were there,
as in every reachable state), and leaves every category's consumed value
unchanged. -/
theorem C4_adapt_to_perception (s : ErrorBudgetSystem) (p : PerceptualState) :
    ((s.AdaptToPerception p).Budgets ErrorType.Temporal).Limit =
      BaseLimits ErrorType.Temporal * (1 + p.CameraVelocity) ∧
    ((s.AdaptToPerception p).Budgets ErrorType.Spatial).Limit =
      BaseLimits ErrorType.Spatial * (1 + p.Luminance * (1 / 2)) ∧
    ((s.AdaptToPerception p).Budgets ErrorType.Reflection).Limit =
      BaseLimits ErrorType.Reflection * (1 + p.FocusDepth) ∧
    (s.AdaptToPerception p).Budgets ErrorType.Shading =
      s.Budgets ErrorType.Shading ∧
    (s.AdaptToPerception p).Budgets ErrorType.Volumetric =
      s.Budgets ErrorType.Volumetric ∧
    ((s.Budgets ErrorType.Shading).Limit = BaseLimits ErrorType.Shading →
      ((s.AdaptToPerception p).Budgets ErrorType.Shading).Limit =
        BaseLimits ErrorType.Shading) ∧
    ((s.Budgets ErrorType.Volumetric).Limit = BaseLimits ErrorType.Volumetric →
      ((s.AdaptToPerception p).Budgets ErrorType.Volumetric).Limit =
        BaseLimits ErrorType.Volumetric) ∧
    (∀ t, ((s.AdaptToPerception p).Budgets t).Current = (s.Budgets t).Current) := by
  refine ⟨rfl, rfl, rfl, rfl, rfl, fun h => h, fun h => h, fun t => ?_⟩
  cases t <;> rfl

/-- Claim C5: `GetRemaining` equals `max(0, limit − consumed)` over the
integers in every state — in particular it is never negative and the
truncated subtraction never underflows. -/
theorem C5_remaining_consistency (s : FrameMemoryBudgetSystem) (d : FrameMemoryDomain) :
    (s.GetRemaining d : ℤ) =
      max 0 (((s.Budgets d).MaxBytes : ℤ) - ((s.Budgets d).UsedBytes : ℤ)) := by
  unfold FrameMemoryBudgetSystem.GetRemaining
  split <;> omega

/-- Claim C6 fails as stated on the error ledger: in a state where every
consumed value is zero but the Temporal limit was adapted to
`0.8 * (1 + 0.5) = 1.2`, `Reset()` is not a no-op — it restores the Temporal
limit to its base constant 0.8. -/
theorem C6_counterexample :
    (∀ t, ((ErrorBudgetSystem.constructed.AdaptToPerception
        ⟨1 / 2, 0, 0⟩).Budgets t).Current = 0) ∧
    (ErrorBudgetSystem.constructed.AdaptToPerception ⟨1 / 2, 0, 0⟩).Reset ≠
      ErrorBudgetSystem.constructed.AdaptToPerception ⟨1 / 2, 0, 0⟩ := by
  constructor
  · intro t
    cases t <;> rfl
  · intro h
    have h2 := congrArg (fun s => (s.Budgets ErrorType.Temporal).Limit) h
    simp only [ErrorBudgetSystem.Reset, ErrorBudgetSystem.AdaptToPerception,
      ErrorBudgetSystem.constructed, BaseLimits] at h2
    norm_num at h2

/-- Claim C6 amended: `BeginFrame` on the memory ledger is a no-op whenever
every consumed value is already zero, and both per-frame resets are
idempotent (twice in a row equals once); the error ledger's `Reset` is a
no-op only when, additionally, every limit already equals its base constant,
because `Reset` also restores the limits. -/
theorem C6_amended_reset_idempotence (ms : FrameMemoryBudgetSystem)
    (es : ErrorBudgetSystem) :
    ((∀ d, (ms.Budgets d).UsedBytes = 0) → ms.BeginFrame = ms) ∧
    ms.BeginFrame.BeginFrame = ms.BeginFrame ∧
    ((∀ t, (es.Budgets t).Current = 0 ∧ (es.Budgets t).Limit = BaseLimits t) →
      es.Reset = es) ∧
    es.Reset.Reset = es.Reset := by
  refine ⟨fun h => ?_, rfl, fun h => ?_, rfl⟩
  · cases ms with
    | mk B T =>
      simp only [FrameMemoryBudgetSystem.BeginFrame]
      congr 1
      funext d
      have hd := h d
      cases hB : B d with
      | mk M U => simp_all
  · cases es with
    | mk B =>
      simp only [ErrorBudgetSystem.Reset]
      congr 1
      funext t
      obtain ⟨h1, h2⟩ := h t
      cases hB : B t with
      | mk C L => simp_all

/-- Claim C7: a category whose limit is zero (and whose consumed value is
zero, as in any ledger that was never initialized or just reset) refuses
every request of a strictly positive amount (below `2 ^ 64` on the memory
side, where the amount is a `uint64_t`) and leaves the whole state
unchanged. -/
theorem C7_zero_limit_refusal (ms : FrameMemoryBudgetSystem) (d : FrameMemoryDomain)
    (bytes : Nat) (es : ErrorBudgetSystem) (ty : ErrorType) (amount : ℚ)
    (hmlim : (ms.Budgets d).MaxBytes = 0) (hmused : (ms.Budgets d).UsedBytes = 0)
    (hbpos : 0 < bytes) (hblt : bytes < U64)
    (helim : (es.Budgets ty).Limit = 0) (hecur : (es.Budgets ty).Current = 0)
    (hapos : 0 < amount) :
    (ms.Request d bytes).1 = false ∧ (ms.Request d bytes).2 = ms ∧
    (es.Request ty amount).1 = false ∧ (es.Request ty amount).2 = es := by
  have hc : ((ms.Budgets d).UsedBytes + bytes) % U64 > (ms.Budgets d).MaxBytes := by
    rw [hmused, hmlim]
    simpa [Nat.mod_eq_of_lt hblt] using hbpos
  have hcE : (es.Budgets ty).Current + amount > (es.Budgets ty).Limit := by
    rw [hecur, helim]
    simpa using hapos
  exact ⟨by simp [FrameMemoryBudgetSystem.Request, hc],
    by simp [FrameMemoryBudgetSystem.Request, hc],
    by simp [ErrorBudgetSystem.Request, hcE],
    by simp [ErrorBudgetSystem.Request, hcE]⟩

/-- Witness for C7 at concrete inputs: the never-initialized memory ledger
refuses a 1-byte Geometry request, and an error ledger whose Temporal limit
was adapted to zero refuses a request of one error unit; both states are
unchanged. -/
theorem C7_zero_limit_refusal_witness :
    (FrameMemoryBudgetSystem.constructed.Budgets FrameMemoryDomain.Geometry).MaxBytes = 0 ∧
    (errTemporalZero.Budgets ErrorType.Temporal).Limit = 0 ∧
    (FrameMemoryBudgetSystem.constructed.Request FrameMemoryDomain.Geometry 1).1 = false ∧
    (FrameMemoryBudgetSystem.constructed.Request FrameMemoryDomain.Geometry 1).2 =
      FrameMemoryBudgetSystem.constructed ∧
    (errTemporalZero.Request ErrorType.Temporal 1).1 = false ∧
    (errTemporalZero.Request ErrorType.Temporal 1).2 = errTemporalZero := by
  have hz : (errTemporalZero.Budgets ErrorType.Temporal).Limit = 0 := by
    norm_num [errTemporalZero, ErrorBudgetSystem.AdaptToPerception,
      ErrorBudgetSystem.constructed, BaseLimits]
  have h := C7_zero_limit_refusal FrameMemoryBudgetSystem.constructed
    FrameMemoryDomain.Geometry 1 errTemporalZero ErrorType.Temporal 1
    rfl rfl (by decide) (by decide) hz rfl (by norm_num)
  exact ⟨rfl, hz, h.1, h.2.1, h.2.2.1, h.2.2.2⟩

/-- Claim C8 fails as stated: `Saturation()` seeds its fold with `0.0f`, so in
a state where every limit is nonzero but every usage ratio is negative (every
consumed value is -1, reachable by five accepted negative requests), it
returns 0 while the maximum of the five usage ratios is -1. -/
theorem C8_counterexample :
    (∀ t, (errNeg.Budgets t).Limit ≠ 0) ∧
    errNeg.Saturation = 0 ∧
    SpecMaxUsage errNeg = -1 ∧
    errNeg.Saturation ≠ SpecMaxUsage errNeg := by
  refine ⟨fun t => ?_, ?_, ?_, ?_⟩
  · cases t <;> norm_num [errNeg, BaseLimits]
  · norm_num [ErrorBudgetSystem.Saturation, errNeg, BaseLimits, max_def]
  · norm_num [SpecMaxUsage, ErrorBudgetSystem.GetUsage, errNeg, BaseLimits, max_def]
  · norm_num [ErrorBudgetSystem.Saturation, SpecMaxUsage,
      ErrorBudgetSystem.GetUsage, errNeg, BaseLimits, max_def]

/-- Claim C8 amended: in every state where each category's limit is strictly
positive and each consumed value is nonnegative (as in every state reachable
without negative request amounts), `Saturation()` returns exactly the maximum
over the five categories of `usageRatio(category)`; the zero seed of the fold
is then dominated by the nonnegative Spatial ratio. -/
theorem C8_amended_saturation (s : ErrorBudgetSystem)
    (hL : ∀ t, 0 < (s.Budgets t).Limit) (hC : ∀ t, 0 ≤ (s.Budgets t).Current) :
    s.Saturation = SpecMaxUsage s := by
  have hr : 0 ≤ (s.Budgets ErrorType.Spatial).Current / (s.Budgets ErrorType.Spatial).Limit :=
    div_nonneg (hC ErrorType.Spatial) (le_of_lt (hL ErrorType.Spatial))
  simp only [ErrorBudgetSystem.Saturation, SpecMaxUsage, ErrorBudgetSystem.GetUsage,
    List.foldl_cons, List.foldl_nil]
  rw [max_eq_right hr]

/-- Witness for C8 on the constructed error ledger: all limits are positive,
all consumed values are zero, and `Saturation()` equals the five-way maximum
of the usage ratios. -/
theorem C8_amended_saturation_witness :
    (∀ t, 0 < (ErrorBudgetSystem.constructed.Budgets t).Limit) ∧
    (∀ t, 0 ≤ (ErrorBudgetSystem.constructed.Budgets t).Current) ∧
    ErrorBudgetSystem.constructed.Saturation = SpecMaxUsage ErrorBudgetSystem.constructed := by
  have hL : ∀ t, 0 < (ErrorBudgetSystem.constructed.Budgets t).Limit := by
    intro t
    cases t <;> norm_num [ErrorBudgetSystem.constructed, BaseLimits]
  have hC : ∀ t, 0 ≤ (ErrorBudgetSystem.constructed.Budgets t).Current :=
    fun t => le_refl 0
  exact ⟨hL, hC, C8_amended_saturation ErrorBudgetSystem.constructed hL hC⟩

/-- Claim C9 fails as stated on the error ledger: its constructor calls
`Reset()`, which sets every limit to its base constant — the Spatial limit is
1.0, not zero, immediately after construction. -/
theorem C9_counterexample :
    (ErrorBudgetSystem.constructed.Budgets ErrorType.Spatial).Limit ≠ 0 := by
  norm_num [ErrorBudgetSystem.constructed, BaseLimits]

/-- Claim C9 amended: immediately after construction the memory ledger is
fully zeroed (every consumed value, every limit and `TotalBudget` are zero),
and the error ledger has every consumed value zero with every limit at its
base constant (not zero). -/
theorem C9_amended_constructed_state :
    (∀ d, (FrameMemoryBudgetSystem.constructed.Budgets d).UsedBytes = 0 ∧
      (FrameMemoryBudgetSystem.constructed.Budgets d).MaxBytes = 0) ∧
    FrameMemoryBudgetSystem.constructed.TotalBudget = 0 ∧
    (∀ t, (ErrorBudgetSystem.constructed.Budgets t).Current = 0 ∧
      (ErrorBudgetSystem.constructed.Budgets t).Limit = BaseLimits t) :=
  ⟨fun _ => ⟨rfl, rfl⟩, rfl, fun _ => ⟨rfl, rfl⟩⟩

/-- Claim C10: the memory ledger's `Request` works in unsigned 64-bit modular
arithmetic — every accepted request sets the consumed counter to
`(consumed + amount) % 2 ^ 64` — and there is a state (Geometry at limit 10
with 5 bytes consumed, satisfying `consumed ≤ limit`) and a `uint64_t` amount
whose exact sum exceeds both the limit and `2 ^ 64`, yet the request is
accepted because the sum wraps around. -/
theorem C10_wraparound (s : FrameMemoryBudgetSystem) (d : FrameMemoryDomain)
    (bytes : Nat) (hacc : (s.Request d bytes).1 = true) :
    ((s.Request d bytes).2.Budgets d).UsedBytes =
      ((s.Budgets d).UsedBytes + bytes) % U64 ∧
    (∃ (s2 : FrameMemoryBudgetSystem) (d2 : FrameMemoryDomain) (b2 : Nat),
      b2 < U64 ∧
      (s2.Budgets d2).UsedBytes ≤ (s2.Budgets d2).MaxBytes ∧
      (s2.Budgets d2).MaxBytes < (s2.Budgets d2).UsedBytes + b2 ∧
      U64 < (s2.Budgets d2).UsedBytes + b2 ∧
      (s2.Request d2 b2).1 = true) := by
  refine ⟨mem_Request_accept_used s d bytes hacc,
    ⟨memTen, FrameMemoryDomain.Geometry, 2 ^ 64 - 1, ?_⟩⟩
  decide

/-- Witness for C10 on a concrete accepted request: at Geometry limit 10 with
5 bytes consumed, a request of 3 bytes is accepted and the counter becomes
`(5 + 3) % 2 ^ 64 = 8`. -/
theorem C10_wraparound_witness :
    (memTen.Request FrameMemoryDomain.Geometry 3).1 = true ∧
    ((memTen.Request FrameMemoryDomain.Geometry 3).2.Budgets
        FrameMemoryDomain.Geometry).UsedBytes =
      ((memTen.Budgets FrameMemoryDomain.Geometry).UsedBytes + 3) % U64 := by
  have h := C10_wraparound memTen FrameMemoryDomain.Geometry 3 (by decide)
  exact ⟨by decide, h.1⟩

end TX
